import Mathlib

/-!
# meilisearch-go: the facade interfaces of `apis.go`

`apis.go` declares twelve Go interfaces and nothing else.  The embedding below
records every declared method with its parameter list and its result list, in
the order of the source, so that statements about the declared surface
(result shapes, the trailing `error`, which facade offers which operation)
become decidable statements about a finite table.
-/

namespace Meilisearch

/-! ## Go types occurring in the signatures -/

/-- Go type expressions used in `apis.go`: the predeclared types, named
(package-level) types, pointers `*T` and slices `[]T`. -/
inductive GoType where
  | string
  | bool
  | int64
  | error
  | emptyInterface
  | named (name : String)
  | pointer (elem : GoType)
  | slice (elem : GoType)
  deriving DecidableEq, Repr

/-- One parameter of a method: its name and its type. -/
structure Param where
  name : String
  type : GoType
  deriving DecidableEq, Repr

/-- One method of an interface: name, parameters, results (in source order). -/
structure Method where
  name : String
  params : List Param
  results : List GoType
  deriving DecidableEq, Repr

/-- A Go interface declaration: its name and its method set in source order. -/
structure Interface where
  name : String
  methods : List Method
  deriving DecidableEq, Repr

/-! ## The twelve interfaces of `apis.go` -/

/-- `type ApiIndexes interface` (apis.go lines 9-41). -/
def ApiIndexes : Interface := ⟨"ApiIndexes", [
  ⟨"Get", [⟨"uid", .string⟩], [.pointer (.named "Index"), .error]⟩,
  ⟨"List", [], [.slice (.named "Index"), .error]⟩,
  ⟨"Create", [⟨"request", .named "CreateIndexRequest"⟩],
    [.pointer (.named "CreateIndexResponse"), .error]⟩,
  ⟨"Update", [⟨"uid", .string⟩, ⟨"name", .string⟩], [.pointer (.named "Index"), .error]⟩,
  ⟨"Delete", [⟨"uid", .string⟩], [.bool, .error]⟩,
  ⟨"GetRawSchema", [⟨"uid", .string⟩], [.pointer (.named "RawSchema"), .error]⟩,
  ⟨"GetSchema", [⟨"uid", .string⟩], [.pointer (.named "Schema"), .error]⟩,
  ⟨"UpdateSchema", [⟨"uid", .string⟩, ⟨"schema", .named "Schema"⟩],
    [.pointer (.named "UpdateIdResponse"), .error]⟩,
  ⟨"UpdateWithRawSchema", [⟨"uid", .string⟩, ⟨"schema", .named "RawSchema"⟩],
    [.pointer (.named "UpdateIdResponse"), .error]⟩]⟩

/-- `type ApiDocuments interface` (apis.go lines 46-67). -/
def ApiDocuments : Interface := ⟨"ApiDocuments", [
  ⟨"Get", [⟨"identifier", .string⟩, ⟨"documentPtr", .emptyInterface⟩], [.error]⟩,
  ⟨"Delete", [⟨"identifier", .string⟩], [.pointer (.named "UpdateIdResponse"), .error]⟩,
  ⟨"Deletes", [⟨"identifier", .slice .string⟩], [.pointer (.named "UpdateIdResponse"), .error]⟩,
  ⟨"List", [⟨"request", .named "ListDocumentsRequest"⟩, ⟨"documentsPtr", .emptyInterface⟩],
    [.error]⟩,
  ⟨"AddOrUpdate", [⟨"documentsPtr", .emptyInterface⟩],
    [.pointer (.named "UpdateIdResponse"), .error]⟩,
  ⟨"ClearAllDocuments", [], [.pointer (.named "UpdateIdResponse"), .error]⟩]⟩

/-- `type ApiSearch interface` (apis.go lines 70-74). -/
def ApiSearch : Interface := ⟨"ApiSearch", [
  ⟨"Search", [⟨"params", .named "SearchRequest"⟩], [.pointer (.named "SearchResponse"), .error]⟩]⟩

/-- `type ApiSynonyms interface` (apis.go lines 76-84). -/
def ApiSynonyms : Interface := ⟨"ApiSynonyms", [
  ⟨"List", [⟨"word", .string⟩], [.slice .string, .error]⟩,
  ⟨"ListAll", [], [.slice (.named "ListSynonymsResponse"), .error]⟩,
  ⟨"Create", [⟨"word", .string⟩, ⟨"synonyms", .slice .string⟩],
    [.pointer (.named "UpdateIdResponse"), .error]⟩,
  ⟨"Update", [⟨"word", .string⟩, ⟨"synonyms", .slice .string⟩],
    [.pointer (.named "UpdateIdResponse"), .error]⟩,
  ⟨"Delete", [⟨"word", .string⟩], [.pointer (.named "UpdateIdResponse"), .error]⟩,
  ⟨"BatchCreate", [⟨"request", .named "BatchCreateSynonymsRequest"⟩],
    [.pointer (.named "UpdateIdResponse"), .error]⟩,
  ⟨"DeleteAll", [], [.pointer (.named "UpdateIdResponse"), .error]⟩]⟩

/-- `type ApiStopWords interface` (apis.go lines 86-90). -/
def ApiStopWords : Interface := ⟨"ApiStopWords", [
  ⟨"List", [], [.slice .string, .error]⟩,
  ⟨"Add", [⟨"words", .slice .string⟩], [.slice (.named "UpdateIdResponse"), .error]⟩,
  ⟨"Deletes", [⟨"words", .slice .string⟩], [.slice (.named "UpdateIdResponse"), .error]⟩]⟩

/-- `type ApiUpdates interface` (apis.go lines 92-95). -/
def ApiUpdates : Interface := ⟨"ApiUpdates", [
  ⟨"Get", [⟨"id", .int64⟩], [.pointer (.named "Unknown"), .error]⟩,
  ⟨"List", [], [.slice (.named "Unknown"), .error]⟩]⟩

/-- `type ApiKey interface` (apis.go lines 97-103). -/
def ApiKey : Interface := ⟨"ApiKey", [
  ⟨"Get", [⟨"key", .string⟩], [.pointer (.named "APIKey"), .error]⟩,
  ⟨"List", [], [.slice (.named "APIKey"), .error]⟩,
  ⟨"Create", [⟨"request", .named "CreateApiKeyRequest"⟩], [.pointer (.named "APIKey"), .error]⟩,
  ⟨"Update", [⟨"request", .named "UpdateApiKeyRequest"⟩], [.pointer (.named "APIKey"), .error]⟩,
  ⟨"Delete", [⟨"key", .string⟩], [.error]⟩]⟩

/-- `type ApiSettings interface` (apis.go lines 105-108). -/
def ApiSettings : Interface := ⟨"ApiSettings", [
  ⟨"Get", [], [.pointer (.named "Settings"), .error]⟩,
  ⟨"AddOrUpdate", [⟨"request", .named "Settings"⟩],
    [.pointer (.named "UpdateIdResponse"), .error]⟩]⟩

/-- `type ApiStats interface` (apis.go lines 110-113). -/
def ApiStats : Interface := ⟨"ApiStats", [
  ⟨"Get", [], [.pointer (.named "Stats"), .error]⟩,
  ⟨"List", [], [.slice (.named "Stats"), .error]⟩]⟩

/-- `type ApiHealth interface` (apis.go lines 115-118). -/
def ApiHealth : Interface := ⟨"ApiHealth", [
  ⟨"Get", [], [.error]⟩,
  ⟨"Set", [⟨"health", .bool⟩], [.error]⟩]⟩

/-- `type ApiVersion interface` (apis.go lines 120-122). -/
def ApiVersion : Interface := ⟨"ApiVersion", [
  ⟨"Get", [], [.pointer (.named "Version"), .error]⟩]⟩

/-- `type ApiSystemInformation interface` (apis.go lines 124-127). -/
def ApiSystemInformation : Interface := ⟨"ApiSystemInformation", [
  ⟨"Get", [], [.pointer (.named "SystemInformation"), .error]⟩,
  ⟨"GetPretty", [], [.pointer (.named "SystemInformationPretty"), .error]⟩]⟩

/-- Every interface declared in `apis.go`, in source order. -/
def facades : List Interface :=
  [ApiIndexes, ApiDocuments, ApiSearch, ApiSynonyms, ApiStopWords, ApiUpdates,
   ApiKey, ApiSettings, ApiStats, ApiHealth, ApiVersion, ApiSystemInformation]

/-! ## Vocabulary for reading the table -/

/-- The method of interface `i` called `method` (Go method names are unique
within an interface). -/
def Interface.method? (i : Interface) (method : String) : Option Method :=
  i.methods.find? (fun m => m.name == method)

/-- The declared result list of `i.method`, when `i` declares such a method. -/
def resultsOf (i : Interface) (method : String) : Option (List GoType) :=
  (i.method? method).map Method.results

/-- Whether the method's name begins with `p`. -/
def nameStartsWith (p : String) (m : Method) : Bool :=
  p.toList.isPrefixOf m.name.toList

/-- A query only reads remote state: the `Get...`, `List...` and `Search`
operations. -/
def isQuery (m : Method) : Bool :=
  nameStartsWith "Get" m || nameStartsWith "List" m || nameStartsWith "Search" m

/-- A mutating operation creates, updates or deletes remote state: every
declared operation that is not a query. -/
def isMutating (m : Method) : Bool := !isQuery m

/-- The result list `(*UpdateIdResponse, error)`. -/
def handleResults : List GoType := [.pointer (.named "UpdateIdResponse"), .error]

/-- The results of a method other than `error`. -/
def nonErrorResults (m : Method) : List GoType :=
  m.results.filter (fun t => t != GoType.error)

/-- The named type a type expression is built on, through `*` and `[]`. -/
def baseName : GoType → Option String
  | .named n => some n
  | .pointer t => baseName t
  | .slice t => baseName t
  | _ => none

/-- Whether some non-error result of the method is built on `UpdateIdResponse`
(as the type itself, a pointer to it or a slice of it). -/
def returnsUpdateIdResponse (m : Method) : Bool :=
  (nonErrorResults m).any (fun t => baseName t == some "UpdateIdResponse")

/-- Whether a parameter or result of the method is built on the named type. -/
def mentions (type : String) (m : Method) : Bool :=
  m.params.any (fun p => baseName p.type == some type) ||
    m.results.any (fun t => baseName t == some type)

/-- The configuration and metadata records of the data model. -/
inductive Record where
  | Settings | Schema | Synonyms | StopWords | APIKey | Stats | Version
  deriving DecidableEq, Repr

/-- All seven records. -/
def Record.all : List Record :=
  [.Settings, .Schema, .Synonyms, .StopWords, .APIKey, .Stats, .Version]

/-- The declared operations that serve a record: the methods of its facade;
for `Schema`, served by `ApiIndexes`, the methods whose signature is built on
the `Schema` type. -/
def Record.operations : Record → List Method
  | .Settings => ApiSettings.methods
  | .Schema => ApiIndexes.methods.filter (mentions "Schema")
  | .Synonyms => ApiSynonyms.methods
  | .StopWords => ApiStopWords.methods
  | .APIKey => ApiKey.methods
  | .Stats => ApiStats.methods
  | .Version => ApiVersion.methods

/-- A fetching operation: a `Get...` or `List...` method. -/
def isFetch (m : Method) : Bool := nameStartsWith "Get" m || nameStartsWith "List" m

/-- A replacing operation: an `Update...` or `AddOrUpdate` method. -/
def isReplace (m : Method) : Bool := nameStartsWith "Update" m || m.name == "AddOrUpdate"

/-- Some declared operation fetches the record. -/
def Record.fetchable (r : Record) : Bool := r.operations.any isFetch

/-- Some declared operation replaces the record. -/
def Record.replaceable (r : Record) : Bool := r.operations.any isReplace

/-- The mutating operations whose result list is not `(*UpdateIdResponse, error)`,
each with its facade, its name and its declared result list. -/
def otherMutatorResults : List (String × String × List GoType) :=
  [("ApiIndexes", "Create", [.pointer (.named "CreateIndexResponse"), .error]),
   ("ApiIndexes", "Update", [.pointer (.named "Index"), .error]),
   ("ApiIndexes", "Delete", [.bool, .error]),
   ("ApiStopWords", "Add", [.slice (.named "UpdateIdResponse"), .error]),
   ("ApiStopWords", "Deletes", [.slice (.named "UpdateIdResponse"), .error]),
   ("ApiKey", "Create", [.pointer (.named "APIKey"), .error]),
   ("ApiKey", "Update", [.pointer (.named "APIKey"), .error]),
   ("ApiKey", "Delete", [.error]),
   ("ApiHealth", "Set", [.error])]

/-- Whether the first parameter of the method is a `string`: the operation is
addressed by an identifier. -/
def takesIdentifier (m : Method) : Bool :=
  m.params.head?.map Param.type == some GoType.string

/-- Whether interface `i` declares `method` with an identifier as first parameter. -/
def Interface.hasKeyed (i : Interface) (method : String) : Bool :=
  match i.method? method with
  | some m => takesIdentifier m
  | none => false

/-! ## The remote service behind the facades

`apis.go` declares the operations only; their implementations and the remote
service they talk to are not part of the file.  The definitions of this section
follow sections 3, 4.1 and 7 of the specification and the doc comments of
`apis.go`.  Every exchange is taken as delivered by the transport, which the
specification treats as an external collaborator, so `TransportError` never
arises here; the randomly generated identifier of a `Create` is an argument.
-/

/-- Modelled from the spec: the error taxonomy of section 7,
{NotFound, ValidationError, DecodeError, TransportError}; the Go `error` values
the facades return are not declared in `apis.go`. -/
inductive ApiError where
  | NotFound | ValidationError | DecodeError | TransportError
  deriving DecidableEq, Repr

/-- Modelled from the spec: `Get(identifier)` on a server-side collection, whose
implementation is missing: "fetches one entity by key; fails with NotFound when
the remote service reports no such key". -/
def fetch {α : Type} (key : α → String) (identifier : String) (c : List α) :
    Except ApiError α :=
  match c.find? (fun e => key e == identifier) with
  | some e => .ok e
  | none => .error .NotFound

/-- Modelled from the spec: whether the server-side collection has an entity
with this key (the missing service state). -/
def holds {α : Type} (key : α → String) (identifier : String) (c : List α) : Bool :=
  c.any (fun e => key e == identifier)

/-- Modelled from the spec: the server-side collection once the entity with this
key has been deleted (the missing service state). -/
def discard {α : Type} (key : α → String) (identifier : String) (c : List α) : List α :=
  c.filter (fun e => key e != identifier)

/-- Modelled from the spec: the `Index` record of section 3 (its Go declaration is
missing): unique identifier and display name. -/
structure Index where
  uid : String
  name : String
  deriving DecidableEq, Repr

/-- Modelled from the spec: the request of `ApiIndexes.Create` (its Go
declaration is missing); the UID is optional, "either caller-supplied or
server-generated". -/
structure CreateIndexRequest where
  uid : Option String
  name : String
  deriving DecidableEq, Repr

/-- Modelled from the spec: the response of `ApiIndexes.Create` (its Go
declaration is missing), carrying the UID of the new index. -/
structure CreateIndexResponse where
  uid : String
  name : String
  deriving DecidableEq, Repr

/-- Modelled from the spec: `ApiIndexes.Get`, whose implementation is missing,
on the indexes the service holds. -/
def Indexes.Get (uid : String) (s : List Index) : Except ApiError Index :=
  fetch Index.uid uid s

/-- Modelled from the spec: `ApiIndexes.Create`, whose implementation is missing.
"If no UID is specified in the request a randomly generated UID will be
returned. It's associated to the new index" (apis.go); the call "fails with
ValidationError when the remote service rejects the payload (e.g., duplicate
identifier)".  `generated` is the UID the service draws. -/
def Indexes.Create (request : CreateIndexRequest) (generated : String) (s : List Index) :
    Except ApiError CreateIndexResponse × List Index :=
  let uid := request.uid.getD generated
  if holds Index.uid uid s then (.error .ValidationError, s)
  else (.ok ⟨uid, request.name⟩, s ++ [⟨uid, request.name⟩])

/-- Modelled from the spec: the `APIKey` record of section 3 (its Go declaration
is missing), identified by its key. -/
structure APIKey where
  key : String
  description : String
  deriving DecidableEq, Repr

/-- Modelled from the spec: the request of `ApiKey.Create` (its Go declaration is
missing). -/
structure CreateApiKeyRequest where
  description : String
  deriving DecidableEq, Repr

/-- Modelled from the spec: `ApiKey.Get`, whose implementation is missing. -/
def Keys.Get (key : String) (s : List APIKey) : Except ApiError APIKey :=
  fetch APIKey.key key s

/-- Modelled from the spec: `ApiKey.Create`, whose implementation is missing; it
returns the full entity, whose key the service draws (`generated`), and is
rejected with ValidationError on a duplicate identifier. -/
def Keys.Create (request : CreateApiKeyRequest) (generated : String) (s : List APIKey) :
    Except ApiError APIKey × List APIKey :=
  if holds APIKey.key generated s then (.error .ValidationError, s)
  else (.ok ⟨generated, request.description⟩, s ++ [⟨generated, request.description⟩])

/-- Modelled from the spec: the `Document` record of section 3 (its Go
declaration is missing): "an arbitrary field mapping; identity is a single
caller-designated unique-identifier field". -/
structure Document where
  identifier : String
  fields : List (String × String)
  deriving DecidableEq, Repr

/-- Modelled from the spec: `UpdateIdResponse` (its Go declaration is missing),
"an asynchronous-operation handle (opaque identifier)". -/
structure UpdateIdResponse where
  updateId : Nat
  deriving DecidableEq, Repr

/-- Modelled from the spec: the mutations of the documents facade that the
service accepts and applies later (the missing service state). -/
inductive Update where
  | addOrUpdate (documents : List Document)
  | delete (identifier : String)
  | deletes (identifiers : List String)
  | clearAll
  deriving DecidableEq, Repr

/-- Modelled from the spec: adding one document, or updating it "if [it]
already exist[s] based on [its] unique identifier" (apis.go), with the
full-replace semantics of section 4.1: the supplied document overwrites the
stored one. -/
def upsert (d : Document) : List Document → List Document
  | [] => [d]
  | e :: rest => if e.identifier = d.identifier then d :: rest else e :: upsert d rest

/-- Modelled from the spec: `AddOrUpdate` of "a list of documents" (apis.go), one
after the other. -/
def upsertAll (payload : List Document) (docs : List Document) : List Document :=
  payload.foldl (fun acc d => upsert d acc) docs

/-- Modelled from the spec: the effect of one accepted mutation on the stored
documents, once the service applies it. -/
def Update.apply : Update → List Document → List Document
  | .addOrUpdate documents, docs => upsertAll documents docs
  | .delete identifier, docs => discard Document.identifier identifier docs
  | .deletes identifiers, docs => docs.filter (fun d => !identifiers.contains d.identifier)
  | .clearAll, _ => []

/-- Modelled from the spec: the documents of one index as the service holds
them: the stored documents, the mutations accepted but not yet applied (in
order of acceptance), and the next update identifier. -/
structure DocumentStore where
  documents : List Document
  pending : List Update
  nextUpdateId : Nat
  deriving DecidableEq, Repr

/-- Modelled from the spec: a mutating call on documents "return[s] an
asynchronous update handle rather than the final state": the mutation is
queued and its handle returned. -/
def DocumentStore.accept (u : Update) (s : DocumentStore) :
    Except ApiError UpdateIdResponse × DocumentStore :=
  (.ok ⟨s.nextUpdateId⟩, ⟨s.documents, s.pending ++ [u], s.nextUpdateId + 1⟩)

/-- Modelled from the spec: the store once the service has applied every
accepted mutation, in order of acceptance. -/
def DocumentStore.settle (s : DocumentStore) : DocumentStore :=
  ⟨s.pending.foldl (fun docs u => u.apply docs) s.documents, [], s.nextUpdateId⟩

/-- Modelled from the spec: `ApiDocuments.Get`, whose implementation is missing.
The document is looked up among the stored documents and handed to `decode`,
which fills the caller's slot `documentPtr`; the decoder is an argument. -/
def Documents.Get {σ : Type} (decode : Document → σ → Except ApiError Unit × σ)
    (identifier : String) (documentPtr : σ) (s : DocumentStore) : Except ApiError Unit × σ :=
  match fetch Document.identifier identifier s.documents with
  | .ok d => decode d documentPtr
  | .error e => (.error e, documentPtr)

/-- Modelled from the spec: `ApiDocuments.Deletes`, whose implementation is missing. -/
def Documents.Deletes (identifier : List String) (s : DocumentStore) :
    Except ApiError UpdateIdResponse × DocumentStore :=
  s.accept (.deletes identifier)

/-- Modelled from the spec: `ApiDocuments.AddOrUpdate`, whose implementation is
missing. -/
def Documents.AddOrUpdate (documents : List Document) (s : DocumentStore) :
    Except ApiError UpdateIdResponse × DocumentStore :=
  s.accept (.addOrUpdate documents)

/-- Modelled from the spec: `ApiDocuments.ClearAllDocuments`, whose implementation
is missing. -/
def Documents.ClearAllDocuments (s : DocumentStore) :
    Except ApiError UpdateIdResponse × DocumentStore :=
  s.accept .clearAll

/-! ## The declared surface -/

/-- The names of the mutating operations, facade by facade. -/
theorem mutating_operations :
    facades.map (fun i => (i.name, (i.methods.filter isMutating).map Method.name)) =
      [("ApiIndexes", ["Create", "Update", "Delete", "UpdateSchema", "UpdateWithRawSchema"]),
       ("ApiDocuments", ["Delete", "Deletes", "AddOrUpdate", "ClearAllDocuments"]),
       ("ApiSearch", []),
       ("ApiSynonyms", ["Create", "Update", "Delete", "BatchCreate", "DeleteAll"]),
       ("ApiStopWords", ["Add", "Deletes"]),
       ("ApiUpdates", []),
       ("ApiKey", ["Create", "Update", "Delete"]),
       ("ApiSettings", ["AddOrUpdate"]),
       ("ApiStats", []),
       ("ApiHealth", ["Set"]),
       ("ApiVersion", []),
       ("ApiSystemInformation", [])] := by
  decide

/-- C1: on the documents, settings and synonyms facades the mutating operations
are exactly the ten named ones, and each of them has the result list
`(*UpdateIdResponse, error)`. -/
theorem documents_settings_synonyms_mutators_return_handle :
    ([ApiDocuments, ApiSettings, ApiSynonyms].map
        (fun i => (i.name, (i.methods.filter isMutating).map Method.name)) =
      [("ApiDocuments", ["Delete", "Deletes", "AddOrUpdate", "ClearAllDocuments"]),
       ("ApiSettings", ["AddOrUpdate"]),
       ("ApiSynonyms", ["Create", "Update", "Delete", "BatchCreate", "DeleteAll"])]) ∧
    (∀ i ∈ [ApiDocuments, ApiSettings, ApiSynonyms], ∀ m ∈ i.methods,
      isMutating m = true → m.results = [.pointer (.named "UpdateIdResponse"), .error]) ∧
    resultsOf ApiDocuments "Delete" = some handleResults ∧
    resultsOf ApiDocuments "Deletes" = some handleResults ∧
    resultsOf ApiDocuments "AddOrUpdate" = some handleResults ∧
    resultsOf ApiDocuments "ClearAllDocuments" = some handleResults ∧
    resultsOf ApiSettings "AddOrUpdate" = some handleResults ∧
    resultsOf ApiSynonyms "Create" = some handleResults ∧
    resultsOf ApiSynonyms "Update" = some handleResults ∧
    resultsOf ApiSynonyms "Delete" = some handleResults ∧
    resultsOf ApiSynonyms "BatchCreate" = some handleResults ∧
    resultsOf ApiSynonyms "DeleteAll" = some handleResults := by
  decide

/-- C1 at a concrete operation: `ApiSettings.AddOrUpdate` is a mutating
operation of a listed facade and returns `(*UpdateIdResponse, error)`. -/
theorem documents_settings_synonyms_mutators_return_handle_witness :
    ApiSettings ∈ [ApiDocuments, ApiSettings, ApiSynonyms] ∧
    Method.mk "AddOrUpdate" [⟨"request", .named "Settings"⟩]
      [.pointer (.named "UpdateIdResponse"), .error] ∈ ApiSettings.methods ∧
    (Method.mk "AddOrUpdate" [⟨"request", .named "Settings"⟩]
      [.pointer (.named "UpdateIdResponse"), .error]).results =
        [.pointer (.named "UpdateIdResponse"), .error] :=
  ⟨by decide, by decide,
   documents_settings_synonyms_mutators_return_handle.2.1 ApiSettings (by decide)
     ⟨"AddOrUpdate", [⟨"request", .named "Settings"⟩],
      [.pointer (.named "UpdateIdResponse"), .error]⟩ (by decide) (by decide)⟩

/-- C7 as stated fails: not every mutating operation returns `UpdateIdResponse`,
even when a pointer to it or a slice of it is counted; `ApiIndexes.Delete`
returns `(bool, error)`. -/
theorem not_every_mutator_returns_update_id :
    resultsOf ApiIndexes "Delete" = some [.bool, .error] ∧
    facades.map (fun i => (i.name,
        (i.methods.filter (fun m => isMutating m && !returnsUpdateIdResponse m)).map
          Method.name)) =
      [("ApiIndexes", ["Create", "Update", "Delete"]), ("ApiDocuments", []), ("ApiSearch", []),
       ("ApiSynonyms", []), ("ApiStopWords", []), ("ApiUpdates", []),
       ("ApiKey", ["Create", "Update", "Delete"]), ("ApiSettings", []), ("ApiStats", []),
       ("ApiHealth", ["Set"]), ("ApiVersion", []), ("ApiSystemInformation", [])] ∧
    ¬ ∀ i ∈ facades, ∀ m ∈ i.methods, isMutating m = true → returnsUpdateIdResponse m = true := by
  decide

/-- C7 amended: every mutating operation has the result list
`(*UpdateIdResponse, error)` except the nine of `otherMutatorResults`, which are
declared with the result lists given there; of those only `ApiStopWords.Add` and
`ApiStopWords.Deletes` return `UpdateIdResponse` at all, as a slice. -/
theorem mutator_results :
    (∀ i ∈ facades, ∀ m ∈ i.methods, isMutating m = true →
      (m.results = [.pointer (.named "UpdateIdResponse"), .error] ∧
          (i.name, m.name, m.results) ∉ otherMutatorResults) ∨
        (i.name, m.name, m.results) ∈ otherMutatorResults) ∧
    (∀ e ∈ otherMutatorResults, ∃ i ∈ facades, ∃ m ∈ i.methods,
      i.name = e.1 ∧ m.name = e.2.1 ∧ m.results = e.2.2 ∧ isMutating m = true ∧
        (returnsUpdateIdResponse m = true ↔ i.name = "ApiStopWords")) := by
  decide

/-- C7 amended, at a concrete operation: `ApiKey.Delete` is a mutating operation
listed in `otherMutatorResults` with the result list `(error)`. -/
theorem mutator_results_witness :
    ApiKey ∈ facades ∧ Method.mk "Delete" [⟨"key", .string⟩] [.error] ∈ ApiKey.methods ∧
    ("ApiKey", "Delete", [GoType.error]) ∈ otherMutatorResults :=
  ⟨by decide, by decide,
   (mutator_results.1 ApiKey (by decide) ⟨"Delete", [⟨"key", .string⟩], [.error]⟩
     (by decide) (by decide)).resolve_left (by decide)⟩

/-- C8: `ApiDocuments.Delete` is declared with results `(*UpdateIdResponse, error)`,
`ApiIndexes.Delete` with `(bool, error)`, and the two result lists differ. -/
theorem deletion_result_shapes :
    resultsOf ApiDocuments "Delete" = some [.pointer (.named "UpdateIdResponse"), .error] ∧
    resultsOf ApiIndexes "Delete" = some [.bool, .error] ∧
    resultsOf ApiDocuments "Delete" ≠ resultsOf ApiIndexes "Delete" := by
  decide

/-- C9 as stated fails: it is not the case that each of the seven records has
both a fetching and a replacing operation; `Version` has no replacing one. -/
theorem not_every_record_replaceable :
    Record.Version.operations.map Method.name = ["Get"] ∧
    Record.all.filter (fun r => !(r.fetchable && r.replaceable)) =
      [Record.StopWords, Record.Stats, Record.Version] ∧
    ¬ ∀ r ∈ Record.all, r.fetchable = true ∧ r.replaceable = true := by
  decide

/-- C9 amended: each of the seven records has a fetching operation; exactly
Settings, Schema, Synonyms and APIKey have an `Update`/`AddOrUpdate` operation;
StopWords is changed through `Add` and `Deletes` only; every operation declared
for Stats and Version is a parameterless query. -/
theorem record_operations :
    (∀ r ∈ Record.all, r.fetchable = true) ∧
    (∀ r ∈ Record.all, r.replaceable = true ↔
      r ∈ [Record.Settings, Record.Schema, Record.Synonyms, Record.APIKey]) ∧
    (Record.StopWords.operations.filter isMutating).map Method.name = ["Add", "Deletes"] ∧
    (∀ r ∈ [Record.Stats, Record.Version], ∀ m ∈ r.operations,
      isQuery m = true ∧ m.params = []) := by
  decide

/-- C9 amended, at a concrete record: `Schema` is one of the seven records and is
fetchable (`ApiIndexes.GetSchema`). -/
theorem record_operations_witness :
    Record.Schema ∈ Record.all ∧ Record.Schema.fetchable = true ∧
    Record.Schema.operations.map Method.name = ["GetSchema", "UpdateSchema"] :=
  ⟨by decide, record_operations.1 Record.Schema (by decide), by decide⟩

/-- C10: `apis.go` declares the twelve named interfaces, and every method of
every one of them has `error` as its last result. -/
theorem every_operation_ends_in_error :
    facades.map Interface.name =
      ["ApiIndexes", "ApiDocuments", "ApiSearch", "ApiSynonyms", "ApiStopWords", "ApiUpdates",
       "ApiKey", "ApiSettings", "ApiStats", "ApiHealth", "ApiVersion",
       "ApiSystemInformation"] ∧
    ∀ i ∈ facades, ∀ m ∈ i.methods, m.results.getLast? = some GoType.error := by
  decide

/-- C10 at a concrete operation: `ApiHealth.Set`, whose only result is the
`error`. -/
theorem every_operation_ends_in_error_witness :
    ApiHealth ∈ facades ∧ Method.mk "Set" [⟨"health", .bool⟩] [.error] ∈ ApiHealth.methods ∧
    (Method.mk "Set" [⟨"health", .bool⟩] [.error]).results.getLast? = some GoType.error :=
  ⟨by decide, by decide,
   every_operation_ends_in_error.2 ApiHealth (by decide) ⟨"Set", [⟨"health", .bool⟩], [.error]⟩
     (by decide)⟩

/-! ## The remote service -/

/-- A key present in the collection is found, and the entity found has that key. -/
theorem fetch_of_mem {α : Type} (key : α → String) (identifier : String) (c : List α)
    (h : ∃ e ∈ c, key e = identifier) :
    ∃ e, fetch key identifier c = .ok e ∧ key e = identifier := by
  induction c with
  | nil => simp at h
  | cons x xs ih =>
    by_cases hx : key x = identifier
    · exact ⟨x, by simp [fetch, List.find?, hx], hx⟩
    · have h' : ∃ e ∈ xs, key e = identifier := by
        obtain ⟨e, he, hk⟩ := h
        rcases List.mem_cons.mp he with rfl | he'
        · exact absurd hk hx
        · exact ⟨e, he', hk⟩
      obtain ⟨e, he, hk⟩ := ih h'
      refine ⟨e, ?_, hk⟩
      have hb : List.find? (fun e => key e == identifier) (x :: xs) =
          List.find? (fun e => key e == identifier) xs :=
        List.find?_cons_of_neg xs (by simpa using hx)
      unfold fetch at he ⊢
      rw [hb]
      exact he

/-- Two upserts with the same identifier: the later one wins. -/
theorem upsert_upsert_same (d e : Document) (h : e.identifier = d.identifier)
    (s : List Document) : upsert d (upsert e s) = upsert d s := by
  induction s with
  | nil => simp [upsert, h]
  | cons x xs ih =>
    by_cases hx : x.identifier = e.identifier
    · simp [upsert, hx, h]
    · have hx' : ¬ x.identifier = d.identifier := by rw [← h]; exact hx
      simp [upsert, hx, hx', ih]

/-- Upserts with different identifiers commute when the first identifier is stored. -/
theorem upsert_comm (d e : Document) (hne : d.identifier ≠ e.identifier) (s : List Document)
    (hmem : d.identifier ∈ s.map Document.identifier) :
    upsert e (upsert d s) = upsert d (upsert e s) := by
  induction s with
  | nil => simp at hmem
  | cons x xs ih =>
    by_cases hd : x.identifier = d.identifier
    · have he : ¬ x.identifier = e.identifier := by rw [hd]; exact hne
      simp [upsert, hd, he, hne]
    · have hmem' : d.identifier ∈ xs.map Document.identifier := by
        simp only [List.map_cons, List.mem_cons] at hmem
        rcases hmem with h | h
        · exact absurd h.symm hd
        · exact h
      by_cases he : x.identifier = e.identifier
      · simp [upsert, hd, he, Ne.symm hne]
      · simp [upsert, hd, he, ih hmem']

/-- An upsert keeps every stored identifier. -/
theorem mem_ids_upsert (d : Document) (k : String) (s : List Document)
    (h : k ∈ s.map Document.identifier) : k ∈ (upsert d s).map Document.identifier := by
  induction s with
  | nil => simp at h
  | cons x xs ih =>
    simp only [List.map_cons, List.mem_cons] at h
    by_cases hx : x.identifier = d.identifier
    · rcases h with h | h
      · simp [upsert, hx, h ▸ hx]
      · simp only [upsert, hx, if_true, List.map_cons, List.mem_cons]
        exact Or.inr h
    · rcases h with h | h
      · simp [upsert, hx, h]
      · simp only [upsert, hx, if_false, List.map_cons, List.mem_cons]
        exact Or.inr (ih h)

/-- After an upsert the document's identifier is stored. -/
theorem mem_ids_upsert_self (d : Document) (s : List Document) :
    d.identifier ∈ (upsert d s).map Document.identifier := by
  induction s with
  | nil => simp [upsert]
  | cons x xs ih =>
    by_cases hx : x.identifier = d.identifier
    · simp [upsert, hx]
    · simp only [upsert, hx, if_false, List.map_cons, List.mem_cons]
      exact Or.inr ih

/-- Upserting a payload keeps every stored identifier. -/
theorem mem_ids_upsertAll (q : List Document) (k : String) (s : List Document)
    (h : k ∈ s.map Document.identifier) : k ∈ (upsertAll q s).map Document.identifier := by
  induction q generalizing s with
  | nil => simpa [upsertAll] using h
  | cons e r ih =>
    simp only [upsertAll, List.foldl_cons]
    exact ih _ (mem_ids_upsert e k s h)

/-- An upsert of a stored identifier that the payload does not touch commutes with the payload. -/
theorem upsert_upsertAll_comm (d : Document) (q : List Document)
    (hq : d.identifier ∉ q.map Document.identifier) (t : List Document)
    (ht : d.identifier ∈ t.map Document.identifier) :
    upsert d (upsertAll q t) = upsertAll q (upsert d t) := by
  induction q generalizing t with
  | nil => simp [upsertAll]
  | cons e r ih =>
    simp only [List.map_cons, List.mem_cons, not_or] at hq
    simp only [upsertAll, List.foldl_cons]
    have h1 := ih hq.2 (upsert e t) (mem_ids_upsert e _ t ht)
    simp only [upsertAll] at h1
    rw [h1, upsert_comm d e hq.1 t ht]

/-- A payload overrides an earlier upsert of an identifier it contains. -/
theorem upsertAll_override (d : Document) (q : List Document)
    (hq : d.identifier ∈ q.map Document.identifier) (u : List Document)
    (hu : d.identifier ∈ u.map Document.identifier) :
    upsertAll q (upsert d u) = upsertAll q u := by
  induction q generalizing u with
  | nil => simp at hq
  | cons e r ih =>
    simp only [upsertAll, List.foldl_cons]
    by_cases he : d.identifier = e.identifier
    · rw [upsert_upsert_same e d he u]
    · simp only [List.map_cons, List.mem_cons] at hq
      have hr : d.identifier ∈ r.map Document.identifier := by
        rcases hq with h | h
        · exact absurd h he
        · exact h
      rw [upsert_comm d e he u hu]
      have h1 := ih hr (upsert e u) (mem_ids_upsert e _ u hu)
      simpa only [upsertAll] using h1

/-- Upserting the same payload twice equals upserting it once. -/
theorem upsertAll_idem (p : List Document) (s : List Document) :
    upsertAll p (upsertAll p s) = upsertAll p s := by
  induction p generalizing s with
  | nil => simp [upsertAll]
  | cons d q ih =>
    have hstep : ∀ t, upsertAll (d :: q) t = upsertAll q (upsert d t) := fun t => by
      simp [upsertAll]
    rw [hstep s, hstep]
    have ht := mem_ids_upsert_self d s
    by_cases hq : d.identifier ∈ q.map Document.identifier
    · rw [upsertAll_override d q hq _ (mem_ids_upsertAll q _ _ ht), ih]
    · rw [upsert_upsertAll_comm d q hq _ ht, upsert_upsert_same d d rfl s, ih]

/-- The documents after settling a store with one more accepted mutation: the
earlier pending mutations are applied first, then the new one. -/
theorem settle_accept (u : Update) (s : DocumentStore) :
    (s.accept u).2.settle.documents = u.apply s.settle.documents := by
  simp [DocumentStore.accept, DocumentStore.settle, List.foldl_append]

/-- C2: the facades declaring both `Create` and `Get(identifier)` are `ApiIndexes`
and `ApiKey`; whenever `Create` succeeds, `Get` with the identifier it returned
succeeds on the resulting state and returns an entity with that identifier;
for an index created with no UID the returned UID is the generated one and
`Get` with it returns an index with that UID. -/
theorem get_after_create :
    ((facades.filter (fun i => (i.method? "Create").isSome && i.hasKeyed "Get")).map
        Interface.name = ["ApiIndexes", "ApiKey"]) ∧
    (∀ request generated s response s', Indexes.Create request generated s = (.ok response, s') →
      ∃ index, Indexes.Get response.uid s' = .ok index ∧ index.uid = response.uid) ∧
    (∀ name generated s response s', Indexes.Create ⟨none, name⟩ generated s = (.ok response, s') →
      response.uid = generated ∧
        ∃ index, Indexes.Get generated s' = .ok index ∧ index.uid = generated) ∧
    (∀ request generated s created s', Keys.Create request generated s = (.ok created, s') →
      ∃ found, Keys.Get created.key s' = .ok found ∧ found.key = created.key) := by
  have hindex : ∀ request generated s response s',
      Indexes.Create request generated s = (.ok response, s') →
      response.uid = request.uid.getD generated ∧
        ∃ index, Indexes.Get response.uid s' = .ok index ∧ index.uid = response.uid := by
    intro request generated s response s' h
    unfold Indexes.Create at h
    by_cases hd : holds Index.uid (request.uid.getD generated) s = true
    · simp [hd] at h
    · simp only [hd, Bool.false_eq_true, if_false, Prod.mk.injEq, Except.ok.injEq] at h
      obtain ⟨hr, hs⟩ := h
      subst hr hs
      exact ⟨rfl, fetch_of_mem Index.uid _ _ ⟨⟨request.uid.getD generated, request.name⟩,
        by simp, rfl⟩⟩
  refine ⟨by decide, ?_, ?_, ?_⟩
  · intro request generated s response s' h
    exact (hindex request generated s response s' h).2
  · intro name generated s response s' h
    obtain ⟨hu, hg⟩ := hindex ⟨none, name⟩ generated s response s' h
    have hu' : response.uid = generated := by simpa using hu
    exact ⟨hu', hu' ▸ hg⟩
  · intro request generated s created s' h
    unfold Keys.Create at h
    by_cases hd : holds APIKey.key generated s = true
    · simp [hd] at h
    · simp only [hd, Bool.false_eq_true, if_false, Prod.mk.injEq, Except.ok.injEq] at h
      obtain ⟨hr, hs⟩ := h
      subst hr hs
      exact fetch_of_mem APIKey.key _ _ ⟨⟨generated, request.description⟩, by simp, rfl⟩

/-- C2 at a concrete input: an index created with no UID on an empty service, the
service drawing the UID "a1b2", and a key created next to an existing one. -/
theorem get_after_create_witness :
    (∃ index, Indexes.Get "a1b2" [⟨"a1b2", "movies"⟩] = .ok index ∧ index.uid = "a1b2") ∧
    (∃ found, Keys.Get "k2" [⟨"k1", "search"⟩, ⟨"k2", "admin"⟩] = .ok found ∧
      found.key = "k2") :=
  ⟨(get_after_create.2.2.1 "movies" "a1b2" [] ⟨"a1b2", "movies"⟩ [⟨"a1b2", "movies"⟩] rfl).2,
   get_after_create.2.2.2 ⟨"admin"⟩ "k2" [⟨"k1", "search"⟩] ⟨"k2", "admin"⟩
     [⟨"k1", "search"⟩, ⟨"k2", "admin"⟩] rfl⟩

/-- C6: `AddOrUpdate` with the same payload applied twice leaves the same final
documents as applying it once, whether or not the service applies the first
call before it accepts the second. -/
theorem add_or_update_idempotent (payload : List Document) (s : DocumentStore) :
    (Documents.AddOrUpdate payload (Documents.AddOrUpdate payload s).2).2.settle.documents =
      (Documents.AddOrUpdate payload s).2.settle.documents ∧
    (Documents.AddOrUpdate payload (Documents.AddOrUpdate payload s).2.settle).2.settle.documents =
      (Documents.AddOrUpdate payload s).2.settle.documents := by
  have hsettled : ∀ t : DocumentStore, t.settle.settle.documents = t.settle.documents := by
    intro t
    simp [DocumentStore.settle]
  unfold Documents.AddOrUpdate
  refine ⟨?_, ?_⟩
  · rw [settle_accept, settle_accept]
    simp only [Update.apply]
    exact upsertAll_idem payload _
  · rw [settle_accept, hsettled, settle_accept]
    simp only [Update.apply]
    exact upsertAll_idem payload _

end Meilisearch
